import Mathlib

/-
Verification of the TalkBot-AI realtime chat session core.

The embedding below translates the Python sources:
  - src/main.py   (module-level session state machine: globals session_ready,
    response_in_progress, current_response, interrupted; handlers on_message,
    interrupt_response, request_response, send_event, input_thread_function)
  - src/LLM.py    (class OpenAIRealtimeChat: the same fields and handlers as
    instance attributes; its on_message body is line-for-line the one of
    main.py except for a dead store into text_delta that is immediately
    overwritten, and an optional debug print)
  - src/STT.py    (STT.get_ephemeral_token and STT.start)

Python booleans become Bool, strings become String, dict events become an
inductive Event, json payloads become an inductive Json with a dumps
function, console fragment/banner prints become an explicit output list.
-/

/-- Python str.lower restricted to ASCII, as applied by the source to
command strings such as /exit and /help (all ASCII). -/
def lowerChar (c : Char) : Char :=
  if 65 ≤ c.toNat ∧ c.toNat ≤ 90 then Char.ofNat (c.toNat + 32) else c

/-- Python user_input.lower() from main.py input_thread_function. -/
def pyLower (s : String) : String := String.mk (s.data.map lowerChar)

/-- Whitespace recognized by Python str.strip for the inputs at hand. -/
def isSpaceChar (c : Char) : Bool := (c = ' ') || (c = '\t') || (c = '\n') || (c = '\r')

/-- Python user_input.strip() from main.py input_thread_function. -/
def pyStrip (s : String) : String :=
  String.mk (((s.data.dropWhile isSpaceChar).reverse.dropWhile isSpaceChar).reverse)

/-- Python s.startswith(p). -/
def pyStartsWith (s p : String) : Bool := p.data.isPrefixOf s.data

/-- Ordered concatenation of a list of text fragments (arrival order). -/
def concatFragments : List String → String
  | [] => ""
  | f :: fs => f ++ concatFragments fs

/-- JSON values, as built by the dict literals of the source. -/
inductive Json where
  | null
  | bool (b : Bool)
  | num (n : Int)
  | str (s : String)
  | arr (xs : List Json)
  | obj (fields : List (String × Json))

/-- Escaping of one character as performed by json.dumps (the characters
appearing in the events of this program need no escaping beyond these). -/
def jsonEscapeChar (c : Char) : String :=
  if c = '\\' then "\\\\"
  else if c = '\"' then "\\\""
  else if c = '\n' then "\\n"
  else String.mk [c]

/-- Escaping of a string body as performed by json.dumps. -/
def jsonEscape (s : String) : String := String.join (s.data.map jsonEscapeChar)

mutual

/-- Serialization of an event, modelling the json.dumps(event_data) call in
send_event (src/main.py line 60, src/LLM.py line 154), with the default
separators of json.dumps. -/
def Json.dumps : Json → String
  | .null => "null"
  | .bool b => if b then "true" else "false"
  | .num n => toString n
  | .str s => "\"" ++ jsonEscape s ++ "\""
  | .arr xs => "[" ++ Json.dumpsArr xs ++ "]"
  | .obj fs => "\x7b" ++ Json.dumpsObj fs ++ "\x7d"

/-- Comma-separated serialization of array elements. -/
def Json.dumpsArr : List Json → String
  | [] => ""
  | [x] => Json.dumps x
  | x :: y :: xs => Json.dumps x ++ ", " ++ Json.dumpsArr (y :: xs)

/-- Comma-separated serialization of object fields. -/
def Json.dumpsObj : List (String × Json) → String
  | [] => ""
  | [(k, v)] => "\"" ++ jsonEscape k ++ "\": " ++ Json.dumps v
  | (k, v) :: f :: fs =>
      "\"" ++ jsonEscape k ++ "\": " ++ Json.dumps v ++ ", " ++ Json.dumpsObj (f :: fs)

end

/-- Field lookup in a list of object fields (Python dict indexing). -/
def lookupField : List (String × Json) → String → Option Json
  | [], _ => none
  | (k, v) :: fs, key => if k = key then some v else lookupField fs key

/-- Python data[key] on a JSON object; none when the key is absent or the
value is not an object (the source would raise there). -/
def Json.lookupKey : Json → String → Option Json
  | .obj fs, key => lookupField fs key
  | _, _ => none

/-- Python access to a JSON string payload. -/
def Json.asString : Json → Option String
  | .str s => some s
  | _ => none

/-- Session state: the module-level globals of src/main.py lines 31-38
(equally the instance attributes of OpenAIRealtimeChat, src/LLM.py
lines 47-53). The websocket handle and terminal bookkeeping are modelled
separately. -/
structure ChatState where
  session_ready : Bool
  response_in_progress : Bool
  current_response : String
  interrupted : Bool
  debug_mode : Bool
deriving DecidableEq, Repr

/-- Server events dispatched on data["type"] by on_message
(src/main.py lines 120-142, src/LLM.py lines 219-243). A
response.text.delta frame carries an optional delta field, read by
data.get("delta", ""). Every other frame type falls through untouched. -/
inductive Event where
  | sessionCreated
  | sessionUpdated
  | responseTextDelta (delta : Option String)
  | responseDone
  | unknownEvent
deriving DecidableEq, Repr

/-- Console output of the handlers: fragment is the streamed
print(text_delta) reaching the consumer; banner is status chrome. -/
inductive Out where
  | fragment (text : String)
  | banner (text : String)
deriving DecidableEq, Repr

/-- on_message from src/main.py lines 112-142 and src/LLM.py lines 213-243.
In the delta branch the source of src/LLM.py first assigns a MODEL: label
into text_delta when current_response is non-empty, but immediately
overwrites it with data.get("delta", ""), so both files compute the same
state; the optional debug print of src/LLM.py line 246 touches no field. -/
def on_message (s : ChatState) (e : Event) : ChatState × List Out :=
  match e with
  | .sessionCreated =>
      ({ s with session_ready := true }, [.banner "Session created and ready"])
  | .sessionUpdated => (s, [.banner "Session instructions updated"])
  | .responseTextDelta d =>
      if s.interrupted then (s, [])
      else
        let text_delta := d.getD ""
        if text_delta = "" then (s, [])
        else
          ({ s with current_response := s.current_response ++ text_delta },
           [.fragment text_delta])
  | .responseDone =>
      ({ s with response_in_progress := false, interrupted := false },
       if s.interrupted then [] else [.banner "--- Response complete ---"])
  | .unknownEvent => (s, [])

/-- interrupt_response from src/main.py lines 159-169 and src/LLM.py
lines 263-271. -/
def interrupt_response (s : ChatState) : ChatState × Bool :=
  if s.response_in_progress then
    ({ s with interrupted := true, response_in_progress := false }, true)
  else (s, false)

/-- The conversation.item.create event built by send_user_message
(src/main.py lines 64-80, src/LLM.py lines 158-178). -/
def conversation_item_create (message : String) : Json :=
  .obj [("type", .str "conversation.item.create"),
        ("item", .obj [("type", .str "message"), ("role", .str "user"),
          ("content", .arr [.obj [("type", .str "input_text"),
            ("text", .str message)]])])]

/-- The response.create event built by request_response
(src/main.py lines 88-93, src/LLM.py lines 185-190). -/
def response_create : Json :=
  .obj [("type", .str "response.create"),
        ("response", .obj [("modalities", .arr [.str "text"])])]

/-- The session.update event built by update_session_instructions
(src/main.py lines 98-103, src/LLM.py lines 199-204). -/
def session_update (instructions : String) : Json :=
  .obj [("type", .str "session.update"),
        ("session", .obj [("instructions", .str instructions)])]

/-- State mutation of request_response (src/main.py lines 82-94,
src/LLM.py lines 180-191): unconditionally flags a response in progress
and clears the accumulated text, then sends response.create. -/
def request_response (s : ChatState) : ChatState × Json :=
  ({ s with response_in_progress := true, current_response := "" }, response_create)

/-- Result of one submitInput, i.e. send_user_message followed by
request_response as performed at src/main.py lines 267-268: the mutated
session state, the events handed to send_event in order, and the error
raised (the source raises none; there is no busy check). -/
structure SubmitResult where
  state : ChatState
  sent : List Json
  error : Option String

/-- submitInput: send_user_message(message) then request_response()
(src/main.py lines 267-268, src/LLM.py lines 413-414). send_user_message
mutates no session field; request_response mutates as above. -/
def submitInput (s : ChatState) (message : String) : SubmitResult :=
  { state := (request_response s).1,
    sent := [conversation_item_create message, response_create],
    error := none }

/-- Sequential processing of a list of server events by on_message,
accumulating console output in order. -/
def run_events (s : ChatState) : List Event → ChatState × List Out
  | [] => (s, [])
  | e :: es =>
      let r1 := on_message s e
      let r2 := run_events r1.1 es
      (r2.1, r1.2 ++ r2.2)

/-- Command dispatch and submission at the tail of one iteration of
input_thread_function (src/main.py lines 243-271): /exit closes, /help
prints, /instructions sends session.update on the stripped remainder,
/debug toggles debug_mode, blank input is dropped, anything else is
submitted via send_user_message and request_response. Returns the new
state, the submitted message if any, and the events handed to send_event. -/
def handle_user_input (s : ChatState) (user_input : String) :
    ChatState × Option String × List Json :=
  if pyLower user_input = "/exit" then (s, none, [])
  else if pyLower user_input = "/help" then (s, none, [])
  else if pyStartsWith (pyLower user_input) "/instructions " then
    (s, none, [session_update (pyStrip (user_input.drop 14))])
  else if pyLower user_input = "/debug" then
    ({ s with debug_mode := ! s.debug_mode }, none, [])
  else if pyStrip user_input = "" then (s, none, [])
  else
    let r := submitInput s user_input
    (r.state, some user_input, r.sent)

/-- One iteration of input_thread_function (src/main.py lines 204-271),
with the keystroke observed by key_watcher_thread during an in-progress
response supplied as an oracle: while session_ready is false the loop
sleeps; while a response is in progress it waits, and only a keypress
(which fires interrupt_response and seeds user_input_buffer) leads to a
submission of that character plus the rest of the typed line; otherwise
the iteration ends with nothing submitted. When no response is in
progress the typed line is handled directly. -/
def input_iteration (s : ChatState) (key : Option Char) (rest : String) :
    ChatState × Option String × List Json :=
  if s.session_ready = false then (s, none, [])
  else if s.response_in_progress then
    match key with
    | none => (s, none, [])
    | some c =>
        let r := interrupt_response s
        if r.2 then handle_user_input r.1 (String.mk [c] ++ rest)
        else (r.1, none, [])
  else
    handle_user_input s rest

/-- The websocket handle as tested by send_event: ws truthy, ws.sock
truthy, ws.sock.connected. -/
structure WebSocketRef where
  ws_some : Bool
  sock_some : Bool
  sock_connected : Bool
deriving DecidableEq, Repr

/-- The Open channel state: the conjunction tested at src/main.py line 59. -/
def WebSocketRef.isOpen (w : WebSocketRef) : Bool :=
  w.ws_some && w.sock_some && w.sock_connected

/-- Result of send_event: the frame transmitted on the wire, if any, and
the NotConnected diagnostic reported to the console, if any. -/
structure SendResult where
  transmitted : Option String
  reported : Option String
deriving DecidableEq, Repr

/-- send_event from src/main.py lines 57-62 and src/LLM.py lines 147-156:
serializes and transmits when the socket is connected, otherwise transmits
nothing and reports the not-connected diagnostic. -/
def send_event (w : WebSocketRef) (event_data : Json) : SendResult :=
  if w.ws_some && w.sock_some && w.sock_connected then
    { transmitted := some (Json.dumps event_data), reported := none }
  else
    { transmitted := none, reported := some "WebSocket not connected. Cannot send event." }

/-- The token issuing endpoint hit by STT.get_ephemeral_token
(src/STT.py line 72). -/
def transcription_sessions_url : String :=
  "https://api.openai.com/v1/realtime/transcription_sessions"

/-- The HTTP response observed by STT.get_ephemeral_token: status code,
the parsed body response.json(), and the raw body response.text. -/
structure HttpResponse where
  status_code : Nat
  body : Json
  text : String

/-- Result of STT.get_ephemeral_token: the endpoints hit by requests.post
in order, the returned secret if any, and the log lines written. -/
structure TokenFetch where
  posts : List String
  token : Option String
  log : List String

/-- STT.get_ephemeral_token from src/STT.py lines 70-103: one POST to the
issuing endpoint; on HTTP 200 extracts client_secret.value from the body,
on any other status logs the failure together with response.text and
returns None (the failure signal its caller turns into a RuntimeError).
There is no retry. -/
def get_ephemeral_token (response : HttpResponse) : TokenFetch :=
  if response.status_code = 200 then
    { posts := [transcription_sessions_url],
      token := (response.body.lookupKey "client_secret").bind
        (fun c => (c.lookupKey "value").bind Json.asString),
      log := ["Requesting ephemeral token", "Successfully obtained ephemeral token"] }
  else
    { posts := [transcription_sessions_url],
      token := none,
      log := ["Requesting ephemeral token",
              "Failed to fetch ephemeral token: " ++ response.text] }

/-- Whether session_created has been set by the time of polling tick t
(src/STT.py lines 114-116): arrival is the tick at which the backend
readiness event transcription_session.created is processed, if ever.
One tick is one 0.1 s sleep of the wait loop. -/
def session_created_at (arrival : Option Nat) (t : Nat) : Bool :=
  match arrival with
  | some a => decide (a ≤ t)
  | none => false

/-- The wait loop of STT.start (src/STT.py lines 261-263): while the
session is not created and fewer than 10 seconds (100 ticks of 0.1 s)
have elapsed, sleep one tick. Returns the number of ticks slept and
whether session_created held on exit. The fuel argument dominates the
100-tick bound and is passed as 101 by stt_start. -/
def wait_loop (arrival : Option Nat) : Nat → Nat → Nat × Bool
  | 0, t => (0, session_created_at arrival t)
  | fuel + 1, t =>
      if ¬ session_created_at arrival t = true ∧ t < 100 then
        let r := wait_loop arrival fuel (t + 1)
        (r.1 + 1, r.2)
      else (0, session_created_at arrival t)

/-- STT connection state: keep_running flag, session_created flag, and
whether the websocket is open. -/
structure STTState where
  keep_running : Bool
  session_created : Bool
  ws_open : Bool
deriving DecidableEq, Repr

/-- Outcome of STT.start: success, or the timeout RuntimeError, each with
the number of 0.1 s ticks the wait loop slept. -/
inductive StartOutcome where
  | ok (ticksWaited : Nat)
  | timeoutErr (message : String) (ticksWaited : Nat)
deriving DecidableEq, Repr

/-- STT.stop from src/STT.py lines 282-300: clears keep_running and closes
the websocket. -/
def stt_stop (s : STTState) : STTState := { s with keep_running := false, ws_open := false }

/-- The connect phase of STT.start (src/STT.py lines 235-268), after a
token was obtained: sets keep_running, clears session_created, opens the
websocket, then waits up to 10 seconds for the readiness event; on timeout
it calls stop() and raises the timeout RuntimeError, otherwise it proceeds
without error. -/
def stt_start (arrival : Option Nat) : STTState × StartOutcome :=
  let s0 : STTState := { keep_running := true, session_created := false, ws_open := true }
  let w := wait_loop arrival 101 0
  if w.2 then ({ s0 with session_created := true }, .ok w.1)
  else (stt_stop s0, .timeoutErr "Timed out waiting for session creation" w.1)

/-- The four Response Session states of the specification. -/
inductive RState where
  | Idle
  | InProgress
  | Interrupted
  | Complete
deriving DecidableEq, Repr

/-- Actions driving the session: submitInput from the input thread,
interrupt_response from the key watcher, and a server event received by
on_message. -/
inductive Act where
  | submit (msg : String)
  | interrupt
  | recv (e : Event)
deriving DecidableEq, Repr

/-- The session state paired with ghost bookkeeping: rstate is the
responseState of the specification tracked along the code transitions
(submitInput begins InProgress, interrupt_response while in progress
marks Interrupted, response.done completes an InProgress turn and drains
an Interrupted one back to Idle as the specification table directs);
backendBusy records that a requested backend response has not yet sent
its response.done; stale records that the Idle state was reached by
draining an interrupted turn. The ghost fields alter no code behavior. -/
structure GState where
  code : ChatState
  rstate : RState
  backendBusy : Bool
  stale : Bool
deriving DecidableEq, Repr

/-- One session transition: the code state moves exactly as the source
moves it, the ghost fields as described at GState. -/
def gstep (g : GState) (a : Act) : GState :=
  match a with
  | .submit m =>
      { code := (submitInput g.code m).state,
        rstate := .InProgress, backendBusy := true, stale := false }
  | .interrupt =>
      let r := interrupt_response g.code
      { g with code := r.1, rstate := if r.2 then .Interrupted else g.rstate }
  | .recv .responseDone =>
      { code := (on_message g.code Event.responseDone).1,
        backendBusy := false,
        stale := if g.rstate = .Interrupted then true else g.stale,
        rstate := match g.rstate with
          | .InProgress => .Complete
          | .Interrupted => .Idle
          | r => r }
  | .recv e => { g with code := (on_message g.code e).1 }

/-- Backend protocol conformance of one action: response.text.delta and
response.done frames arrive only while a requested response is still
draining; every other action is unrestricted. -/
def wfAct (g : GState) : Act → Prop
  | .recv (.responseTextDelta _) => g.backendBusy = true
  | .recv .responseDone => g.backendBusy = true
  | _ => True

/-- The initial session state of src/main.py lines 31-38: not ready, no
response in progress, empty accumulated text, not interrupted. -/
def g0 : GState :=
  { code := { session_ready := false, response_in_progress := false,
              current_response := "", interrupted := false, debug_mode := false },
    rstate := .Idle, backendBusy := false, stale := false }

/-- Session states reachable from the initial state under protocol
conformant action sequences. -/
inductive GReachable : GState → Prop where
  | init : GReachable g0
  | step {g : GState} {a : Act} : GReachable g → wfAct g a → GReachable (gstep g a)

/-- Invariant carried by every reachable session state: in the Idle
response state no response is in progress, the backend is quiet, and the
accumulated text is empty unless it is the stale remnant of a drained
interrupted turn. -/
def GInv (g : GState) : Prop :=
  g.rstate = RState.Idle →
    g.code.response_in_progress = false ∧ g.backendBusy = false ∧
      (g.stale = true ∨ g.code.current_response = "")

/-- The reachable state exercised by the counterexample to the stated
Idle-text invariant: submit a turn, receive one fragment, interrupt, then
let the backend drain with response.done. -/
def staleIdleTrace : GState :=
  gstep (gstep (gstep (gstep g0 (Act.submit "Tell me a story"))
    (Act.recv (Event.responseTextDelta (some "Once")))) Act.interrupt)
    (Act.recv Event.responseDone)

/-- Processing a concatenation of event lists composes state threading and
concatenates outputs. -/
theorem run_events_append (es1 es2 : List Event) (s : ChatState) :
    run_events s (es1 ++ es2) =
      ((run_events (run_events s es1).1 es2).1,
        (run_events s es1).2 ++ (run_events (run_events s es1).1 es2).2) := by
  induction es1 generalizing s with
  | nil => simp [run_events]
  | cons e es ih => simp [run_events, ih, List.append_assoc]

/-- While the interrupted flag is set, delta frames neither change the
state nor produce any output (the delta branch of on_message is guarded by
the flag). -/
theorem run_deltas_interrupted (ds : List (Option String)) :
    ∀ s : ChatState, s.interrupted = true →
      run_events s (ds.map Event.responseTextDelta) = (s, []) := by
  induction ds with
  | nil => intro s h; simp [run_events]
  | cons d ds ih => intro s h; simp [run_events, on_message, h, ih s h]

/-- While the interrupted flag is clear, a run of delta frames appends the
carried fragments, in order, to the accumulated text, touching no other
field. -/
theorem run_deltas_live (fs : List String) :
    ∀ s : ChatState, s.interrupted = false →
      (run_events s (fs.map (fun f => Event.responseTextDelta (some f)))).1 =
        { s with current_response := s.current_response ++ concatFragments fs } := by
  induction fs with
  | nil => intro s h; simp [run_events, concatFragments, String.append_empty]
  | cons f fs ih =>
      intro s h
      by_cases hf : f = ""
      · subst hf
        simpa [run_events, on_message, h, concatFragments, String.empty_append]
          using ih s h
      · have hrec := ih { s with current_response := s.current_response ++ f } h
        rw [h] at hrec
        simp only [] at hrec
        simp [run_events, on_message, h, hf, concatFragments, hrec,
          String.append_assoc]

/-- The wait loop sleeps at most 100 - t ticks when entered at tick t:
the 10 second bound of STT.start. -/
theorem wait_loop_ticks (arrival : Option Nat) :
    ∀ fuel t, (wait_loop arrival fuel t).1 ≤ 100 - t := by
  intro fuel
  induction fuel with
  | zero => intro t; simp [wait_loop]
  | succ n ih =>
      intro t
      by_cases hc : (¬ session_created_at arrival t = true ∧ t < 100)
      · have h1 := ih (t + 1)
        simp only [wait_loop, if_pos hc]
        obtain ⟨-, h2⟩ := hc
        omega
      · simp only [wait_loop]
        rw [if_neg hc]
        simp

/-- If the readiness event never arrives, the wait loop reports failure. -/
theorem wait_loop_none_false : ∀ fuel t, (wait_loop none fuel t).2 = false := by
  intro fuel
  induction fuel with
  | zero => intro t; simp [wait_loop, session_created_at]
  | succ n ih =>
      intro t
      by_cases ht : t < 100
      · simp [wait_loop, session_created_at, ht, ih (t + 1)]
      · simp [wait_loop, session_created_at, ht]

/-- If the readiness event arrives only after the 10 second window, the
wait loop reports failure. -/
theorem wait_loop_late_false (a : Nat) (ha : 100 < a) :
    ∀ fuel t, t ≤ 100 → (wait_loop (some a) fuel t).2 = false := by
  intro fuel
  induction fuel with
  | zero =>
      intro t ht
      simp [wait_loop, session_created_at]
      omega
  | succ n ih =>
      intro t ht
      have hcr : session_created_at (some a) t = false := by
        simp [session_created_at]
        omega
      by_cases hlt : t < 100
      · simp [wait_loop, hcr, hlt, ih (t + 1) (by omega)]
      · simp [wait_loop, hcr, hlt]

/-- If the readiness event arrives within the 10 second window and the
fuel dominates the window, the wait loop reports success. -/
theorem wait_loop_hit_true (a : Nat) (ha : a ≤ 100) :
    ∀ fuel t, 100 < fuel + t → (wait_loop (some a) fuel t).2 = true := by
  intro fuel
  induction fuel with
  | zero =>
      intro t ht
      simp [wait_loop, session_created_at]
      omega
  | succ n ih =>
      intro t ht
      by_cases hcr : session_created_at (some a) t = true
      · simp [wait_loop, hcr]
      · by_cases hlt : t < 100
        · simp [wait_loop, hcr, hlt, ih (t + 1) (by omega)]
        · exfalso
          simp [session_created_at] at hcr
          omega

/-- Preservation of the Idle invariant along every protocol conformant
session transition. -/
theorem ginv_gstep (g : GState) (a : Act) (hwf : wfAct g a) (h : GInv g) :
    GInv (gstep g a) := by
  cases a with
  | submit m => intro hidle; exact absurd hidle (by simp [gstep])
  | interrupt =>
      intro hidle
      by_cases hip : g.code.response_in_progress = true
      · exact absurd hidle (by simp [gstep, interrupt_response, hip])
      · have hir : interrupt_response g.code = (g.code, false) := by
          simp [interrupt_response, hip]
        have hidle' : g.rstate = RState.Idle := by
          have h2 := hidle
          simp [gstep, hir] at h2
          exact h2
        obtain ⟨h1, h2, h3⟩ := h hidle'
        refine ⟨?_, ?_, ?_⟩
        · simpa [gstep, hir] using h1
        · simpa [gstep, hir] using h2
        · simpa [gstep, hir] using h3
  | recv e =>
      cases e with
      | sessionCreated => intro hidle; exact h hidle
      | sessionUpdated => intro hidle; exact h hidle
      | unknownEvent => intro hidle; exact h hidle
      | responseTextDelta d =>
          intro hidle
          have hg := h hidle
          exact absurd hwf (by simp [wfAct, hg.2.1])
      | responseDone =>
          intro hidle
          cases hr : g.rstate with
          | Idle =>
              have hg := h hr
              exact absurd hwf (by simp [wfAct, hg.2.1])
          | InProgress => exact absurd hidle (by simp [gstep, hr])
          | Interrupted =>
              refine ⟨?_, rfl, Or.inl ?_⟩
              · simp [gstep, on_message]
              · simp [gstep, hr]
          | Complete => exact absurd hidle (by simp [gstep, hr])

/-- Every reachable session state satisfies the Idle invariant. -/
theorem greachable_inv (g : GState) (hg : GReachable g) : GInv g := by
  induction hg with
  | init => intro hidle; exact ⟨rfl, rfl, Or.inr rfl⟩
  | step hr hwf ih => exact ginv_gstep _ _ hwf ih

/-- Claim C1: for every sequence of fragments F1..Fn delivered via
response.text.delta events while the response started by submitInput is in
progress (no interrupt during the turn, so the interrupted flag is clear),
the accumulated response text after the response.done event equals the
concatenation of F1..Fn in arrival order. -/
theorem fragment_accumulation_correct (s : ChatState) (message : String)
    (fs : List String) (h : s.interrupted = false) :
    (on_message
        (run_events (submitInput s message).state
          (fs.map (fun f => Event.responseTextDelta (some f)))).1
        Event.responseDone).1.current_response = concatFragments fs := by
  have h1 : (submitInput s message).state.interrupted = false := h
  have h2 := run_deltas_live fs (submitInput s message).state h1
  rw [h2]
  simp [on_message, submitInput, request_response, String.empty_append]

/-- Claim C1 witness: scenario 1 of the specification, submit Hello, the
fragments Hi, space-there, bang arrive, then response.done; the final text
is Hi there with the bang. -/
theorem fragment_accumulation_correct_witness :
    (on_message
        (run_events (submitInput
            { session_ready := true, response_in_progress := false,
              current_response := "", interrupted := false, debug_mode := false }
            "Hello").state
          (["Hi", " there", "!"].map (fun f => Event.responseTextDelta (some f)))).1
        Event.responseDone).1.current_response = "Hi there!" :=
  (fragment_accumulation_correct
      { session_ready := true, response_in_progress := false,
        current_response := "", interrupted := false, debug_mode := false }
      "Hello" ["Hi", " there", "!"] rfl).trans (by decide)

/-- Claim C2: interrupt_response while no response is in progress returns
false and changes nothing; while a response is in progress it returns true
and every delta frame arriving afterwards is neither appended to the
accumulated text nor emitted to the consumer, even when the response.done
of the turn arrives after those frames. -/
theorem interrupt_semantics (s : ChatState) (ds : List (Option String)) :
    (s.response_in_progress = false → interrupt_response s = (s, false)) ∧
    (s.response_in_progress = true →
      (interrupt_response s).2 = true ∧
      (interrupt_response s).1.current_response = s.current_response ∧
      (run_events (interrupt_response s).1
          (ds.map Event.responseTextDelta ++ [Event.responseDone])).1.current_response
        = s.current_response ∧
      (run_events (interrupt_response s).1
          (ds.map Event.responseTextDelta ++ [Event.responseDone])).2 = []) := by
  constructor
  · intro h
    simp [interrupt_response, h]
  · intro h
    have hi : (interrupt_response s).1.interrupted = true := by
      simp [interrupt_response, h]
    have hcr : (interrupt_response s).1.current_response = s.current_response := by
      simp [interrupt_response, h]
    have hd := run_deltas_interrupted ds (interrupt_response s).1 hi
    refine ⟨by simp [interrupt_response, h], hcr, ?_, ?_⟩
    · rw [run_events_append, hd]
      simp [run_events, on_message, hi, hcr]
    · rw [run_events_append, hd]
      simp [run_events, on_message, hi]

/-- Claim C2 witness: concrete idle state where interrupt_response is a
no-op returning false, and concrete in-progress state where it returns
true and a later delta plus the draining response.done leave the text
unchanged and emit nothing. -/
theorem interrupt_semantics_witness :
    (interrupt_response
        { session_ready := true, response_in_progress := false,
          current_response := "", interrupted := false, debug_mode := false }
      = ({ session_ready := true, response_in_progress := false,
           current_response := "", interrupted := false, debug_mode := false }, false)) ∧
    ((interrupt_response
        { session_ready := true, response_in_progress := true,
          current_response := "Once", interrupted := false, debug_mode := false }).2 = true ∧
      (interrupt_response
        { session_ready := true, response_in_progress := true,
          current_response := "Once", interrupted := false, debug_mode := false }).1.current_response
        = "Once" ∧
      (run_events (interrupt_response
          { session_ready := true, response_in_progress := true,
            current_response := "Once", interrupted := false, debug_mode := false }).1
          ([some "upon a time"].map Event.responseTextDelta ++ [Event.responseDone])).1.current_response
        = "Once" ∧
      (run_events (interrupt_response
          { session_ready := true, response_in_progress := true,
            current_response := "Once", interrupted := false, debug_mode := false }).1
          ([some "upon a time"].map Event.responseTextDelta ++ [Event.responseDone])).2 = []) :=
  ⟨(interrupt_semantics
      { session_ready := true, response_in_progress := false,
        current_response := "", interrupted := false, debug_mode := false } []).1 rfl,
   (interrupt_semantics
      { session_ready := true, response_in_progress := true,
        current_response := "Once", interrupted := false, debug_mode := false }
      [some "upon a time"]).2 rfl⟩

/-- Claim C3 counterexample: in an interrupted session holding the stale
text Once, processing response.done clears the interrupted flag as the
claim states, but the accumulated text is retained, not discarded, so the
claimed empty accumulated text is false at this input. -/
theorem interrupted_done_counterexample :
    (on_message
        { session_ready := true, response_in_progress := false,
          current_response := "Once", interrupted := true, debug_mode := false }
        Event.responseDone).1.interrupted = false ∧
    (on_message
        { session_ready := true, response_in_progress := false,
          current_response := "Once", interrupted := true, debug_mode := false }
        Event.responseDone).1.current_response = "Once" ∧
    ¬ (on_message
        { session_ready := true, response_in_progress := false,
          current_response := "Once", interrupted := true, debug_mode := false }
        Event.responseDone).1.current_response = "" := by
  refine ⟨rfl, rfl, by decide⟩

/-- Claim C3 (amended): when the session is interrupted and response.done
arrives, the interrupted flag is cleared, no response remains in progress,
and nothing is printed; the stale accumulated text is NOT discarded — it
is retained unchanged and is cleared only when the next submitInput begins
a new response. -/
theorem interrupted_done_amended (s : ChatState) (m : String)
    (h : s.interrupted = true) :
    (on_message s Event.responseDone).1.interrupted = false ∧
    (on_message s Event.responseDone).1.response_in_progress = false ∧
    (on_message s Event.responseDone).1.current_response = s.current_response ∧
    (on_message s Event.responseDone).2 = [] ∧
    (submitInput (on_message s Event.responseDone).1 m).state.current_response = "" := by
  simp [on_message, submitInput, request_response, h]

/-- Claim C3 amended witness: the interrupted state holding Once, drained
by response.done and followed by a fresh submitInput. -/
theorem interrupted_done_amended_witness :
    (on_message
        { session_ready := true, response_in_progress := false,
          current_response := "Once", interrupted := true, debug_mode := false }
        Event.responseDone).1.interrupted = false ∧
    (on_message
        { session_ready := true, response_in_progress := false,
          current_response := "Once", interrupted := true, debug_mode := false }
        Event.responseDone).1.response_in_progress = false ∧
    (on_message
        { session_ready := true, response_in_progress := false,
          current_response := "Once", interrupted := true, debug_mode := false }
        Event.responseDone).1.current_response
      = ChatState.current_response
          { session_ready := true, response_in_progress := false,
            current_response := "Once", interrupted := true, debug_mode := false } ∧
    (on_message
        { session_ready := true, response_in_progress := false,
          current_response := "Once", interrupted := true, debug_mode := false }
        Event.responseDone).2 = [] ∧
    (submitInput (on_message
        { session_ready := true, response_in_progress := false,
          current_response := "Once", interrupted := true, debug_mode := false }
        Event.responseDone).1 "Never mind").state.current_response = "" :=
  interrupted_done_amended
    { session_ready := true, response_in_progress := false,
      current_response := "Once", interrupted := true, debug_mode := false }
    "Never mind" rfl

/-- Claim C4 counterexample: submitInput issued while a response is in
progress and not interrupted raises no error at all (there is no
ResponseBusy in the code) and does send both events to the LLM channel,
so the claimed rejection with nothing sent is false at this input. -/
theorem submit_busy_counterexample :
    (submitInput
        { session_ready := true, response_in_progress := true,
          current_response := "Once upon", interrupted := false, debug_mode := false }
        "Hello again").error = none ∧
    (submitInput
        { session_ready := true, response_in_progress := true,
          current_response := "Once upon", interrupted := false, debug_mode := false }
        "Hello again").sent.length = 2 :=
  ⟨rfl, rfl⟩

/-- Claim C4 (amended): the session never rejects a submitInput —
request_response has no busy check, so submitInput raises no error and
always sends the conversation item followed by response.create. The busy
guard lives in the input loop instead: while a response is in progress an
iteration without a keypress submits nothing and sends nothing, and a
keypress first fires interrupt_response (which returns true) after which
the collected input proceeds through the normal submission path. -/
theorem submit_busy_amended (s : ChatState) (m rest : String) (c : Char)
    (hready : s.session_ready = true) (hbusy : s.response_in_progress = true) :
    (submitInput s m).error = none ∧
    (submitInput s m).sent = [conversation_item_create m, response_create] ∧
    input_iteration s none rest = (s, none, []) ∧
    (interrupt_response s).2 = true ∧
    input_iteration s (some c) rest
      = handle_user_input (interrupt_response s).1 (String.mk [c] ++ rest) := by
  refine ⟨rfl, rfl, ?_, ?_, ?_⟩
  · simp [input_iteration, hready, hbusy]
  · simp [interrupt_response, hbusy]
  · simp [input_iteration, hready, hbusy, interrupt_response]

/-- Claim C4 amended witness: scenario 2 of the specification, with a
busy session, no keypress submitting nothing, and the keypress N followed
by the rest of the line proceeding through interruption to submission. -/
theorem submit_busy_amended_witness :
    (submitInput
        { session_ready := true, response_in_progress := true,
          current_response := "Once", interrupted := false, debug_mode := false }
        "x").error = none ∧
    (submitInput
        { session_ready := true, response_in_progress := true,
          current_response := "Once", interrupted := false, debug_mode := false }
        "x").sent = [conversation_item_create "x", response_create] ∧
    input_iteration
        { session_ready := true, response_in_progress := true,
          current_response := "Once", interrupted := false, debug_mode := false }
        none "ever mind"
      = ({ session_ready := true, response_in_progress := true,
           current_response := "Once", interrupted := false, debug_mode := false },
         none, []) ∧
    (interrupt_response
        { session_ready := true, response_in_progress := true,
          current_response := "Once", interrupted := false, debug_mode := false }).2 = true ∧
    input_iteration
        { session_ready := true, response_in_progress := true,
          current_response := "Once", interrupted := false, debug_mode := false }
        (some 'N') "ever mind"
      = handle_user_input
          (interrupt_response
            { session_ready := true, response_in_progress := true,
              current_response := "Once", interrupted := false, debug_mode := false }).1
          (String.mk ['N'] ++ "ever mind") :=
  submit_busy_amended
    { session_ready := true, response_in_progress := true,
      current_response := "Once", interrupted := false, debug_mode := false }
    "x" "ever mind" 'N' rfl rfl

/-- Claim C5 counterexample: the reachable state obtained by submitting a
turn, receiving the fragment Once, interrupting, and letting the backend
drain with response.done is in the Idle response state of the
specification table, yet its accumulated text is the non-empty stale
fragment, so the claimed emptiness of the accumulated text in Idle is
false at this reachable state. -/
theorem idle_text_counterexample :
    GReachable staleIdleTrace ∧
    staleIdleTrace.rstate = RState.Idle ∧
    staleIdleTrace.code.current_response = "Once" ∧
    ¬ staleIdleTrace.code.current_response = "" := by
  refine ⟨?_, by decide, by decide, by decide⟩
  exact GReachable.step
    (GReachable.step
      (GReachable.step (GReachable.step GReachable.init True.intro) rfl)
      True.intro)
    rfl

/-- Claim C5 (amended): in every reachable session state, whenever the
response state is Idle the accumulated text is empty unless it is the
stale remnant of an interrupted turn drained by response.done (the code
retains that text until the next submitInput clears it); and the response
state becomes InProgress only through submitInput, which the unguarded
request_response also accepts from Interrupted, not only from Idle or
Complete. -/
theorem session_invariants_amended :
    (∀ g : GState, GReachable g → g.rstate = RState.Idle →
      g.stale = true ∨ g.code.current_response = "") ∧
    (∀ (g : GState) (a : Act), (gstep g a).rstate = RState.InProgress →
      g.rstate = RState.InProgress ∨ ∃ m, a = Act.submit m) := by
  constructor
  · intro g hg hidle
    exact (greachable_inv g hg hidle).2.2
  · intro g a h
    cases a with
    | submit m => exact Or.inr ⟨m, rfl⟩
    | interrupt =>
        by_cases hip : g.code.response_in_progress = true
        · simp [gstep, interrupt_response, hip] at h
        · have hir : interrupt_response g.code = (g.code, false) := by
            simp [interrupt_response, hip]
          simp [gstep, hir] at h
          exact Or.inl h
    | recv e =>
        cases e with
        | sessionCreated => exact Or.inl h
        | sessionUpdated => exact Or.inl h
        | unknownEvent => exact Or.inl h
        | responseTextDelta d => exact Or.inl h
        | responseDone =>
            cases hr : g.rstate with
            | Idle => simp [gstep, hr] at h
            | InProgress => simp [gstep, hr] at h
            | Interrupted => simp [gstep, hr] at h
            | Complete => simp [gstep, hr] at h

/-- Claim C5 amended witness: the initial state is reachable and Idle with
empty text, and a submit action is the submit that entered InProgress. -/
theorem session_invariants_amended_witness :
    (g0.stale = true ∨ g0.code.current_response = "") ∧
    (g0.rstate = RState.InProgress ∨ ∃ m, Act.submit "Hello" = Act.submit m) :=
  ⟨session_invariants_amended.1 g0 GReachable.init rfl,
   session_invariants_amended.2 g0 (Act.submit "Hello") rfl⟩

/-- Claim C6: calling interrupt_response twice in a row leaves the session
in the same state as calling it once, from every starting state. -/
theorem interrupt_idempotent (s : ChatState) :
    (interrupt_response (interrupt_response s).1).1 = (interrupt_response s).1 := by
  unfold interrupt_response
  by_cases h : s.response_in_progress = true <;> simp [h]

/-- Claim C7: send_event on an open channel serializes the event with
json.dumps and transmits it, reporting no error; on a channel that is not
open it transmits nothing and reports the not-connected diagnostic. -/
theorem send_event_spec (w : WebSocketRef) (e : Json) :
    (w.isOpen = true →
      send_event w e = { transmitted := some (Json.dumps e), reported := none }) ∧
    (w.isOpen = false →
      send_event w e
        = { transmitted := none,
            reported := some "WebSocket not connected. Cannot send event." }) := by
  constructor
  · intro h
    simp only [WebSocketRef.isOpen] at h
    simp [send_event, h]
  · intro h
    simp only [WebSocketRef.isOpen] at h
    simp [send_event, h]

/-- Claim C7 witness: a connected handle transmits the serialized
response.create frame; a handle with a dropped socket transmits nothing
and reports the diagnostic. -/
theorem send_event_spec_witness :
    send_event { ws_some := true, sock_some := true, sock_connected := true }
        response_create
      = { transmitted := some (Json.dumps response_create), reported := none } ∧
    send_event { ws_some := true, sock_some := true, sock_connected := false }
        response_create
      = { transmitted := none,
          reported := some "WebSocket not connected. Cannot send event." } :=
  ⟨(send_event_spec { ws_some := true, sock_some := true, sock_connected := true }
      response_create).1 rfl,
   (send_event_spec { ws_some := true, sock_some := true, sock_connected := false }
      response_create).2 rfl⟩

/-- Claim C8: get_ephemeral_token performs exactly one POST to the issuing
endpoint (no retry); on HTTP 200 it returns the secret extracted from
client_secret.value of the response body, and on any other status it
returns no token and logs the failure carrying the response body. -/
theorem get_ephemeral_token_spec (response : HttpResponse) (v : String) :
    (get_ephemeral_token response).posts = [transcription_sessions_url] ∧
    (response.status_code = 200 →
      (response.body.lookupKey "client_secret").bind
          (fun c => (c.lookupKey "value").bind Json.asString) = some v →
      (get_ephemeral_token response).token = some v) ∧
    (response.status_code ≠ 200 →
      (get_ephemeral_token response).token = none ∧
      ("Failed to fetch ephemeral token: " ++ response.text)
        ∈ (get_ephemeral_token response).log) := by
  by_cases h : response.status_code = 200 <;>
    simp [get_ephemeral_token, h]

/-- Claim C8 witness: a 200 response with a well-formed body yields its
secret; a 401 response yields no token and logs its body. -/
theorem get_ephemeral_token_spec_witness :
    (get_ephemeral_token
        { status_code := 200,
          body := Json.obj [("client_secret", Json.obj [("value", Json.str "tok")])],
          text := "ok" }).token = some "tok" ∧
    ((get_ephemeral_token
        { status_code := 401, body := Json.null, text := "denied" }).token = none ∧
      ("Failed to fetch ephemeral token: " ++ "denied")
        ∈ (get_ephemeral_token
            { status_code := 401, body := Json.null, text := "denied" }).log) :=
  ⟨(get_ephemeral_token_spec
      { status_code := 200,
        body := Json.obj [("client_secret", Json.obj [("value", Json.str "tok")])],
        text := "ok" } "tok").2.1 rfl (by decide),
   (get_ephemeral_token_spec
      { status_code := 401, body := Json.null, text := "denied" } "tok").2.2
     (by decide)⟩

/-- Claim C9: the connect phase of STT.start blocks for at most the 10
second window (at most 100 ticks of 0.1 s); when the readiness event
arrives within the window it proceeds without error, and when it never
arrives within the window (never at all, or only after the window) it
signals the timeout RuntimeError and leaves the websocket closed, not
open. -/
theorem stt_start_timeout_spec (arrival : Option Nat) (a : Nat) :
    (wait_loop arrival 101 0).1 ≤ 100 ∧
    (arrival = some a → a ≤ 100 →
      stt_start arrival
        = ({ keep_running := true, session_created := true, ws_open := true },
           StartOutcome.ok (wait_loop arrival 101 0).1)) ∧
    (arrival = none →
      stt_start arrival
        = ({ keep_running := false, session_created := false, ws_open := false },
           StartOutcome.timeoutErr "Timed out waiting for session creation"
             (wait_loop arrival 101 0).1)) ∧
    (arrival = some a → 100 < a →
      stt_start arrival
        = ({ keep_running := false, session_created := false, ws_open := false },
           StartOutcome.timeoutErr "Timed out waiting for session creation"
             (wait_loop arrival 101 0).1)) := by
  refine ⟨by simpa using wait_loop_ticks arrival 101 0, ?_, ?_, ?_⟩
  · intro harr hle
    subst harr
    have h2 := wait_loop_hit_true a hle 101 0 (by omega)
    simp [stt_start, h2, stt_stop]
  · intro harr
    subst harr
    have h2 := wait_loop_none_false 101 0
    simp [stt_start, h2, stt_stop]
  · intro harr hgt
    subst harr
    have h2 := wait_loop_late_false a hgt 101 0 (by omega)
    simp [stt_start, h2, stt_stop]

/-- Claim C9 witness: a readiness event at tick 3 lets stt_start proceed
without error; no readiness event yields the timeout RuntimeError with the
websocket closed. -/
theorem stt_start_timeout_spec_witness :
    stt_start (some 3)
      = ({ keep_running := true, session_created := true, ws_open := true },
         StartOutcome.ok (wait_loop (some 3) 101 0).1) ∧
    stt_start none
      = ({ keep_running := false, session_created := false, ws_open := false },
         StartOutcome.timeoutErr "Timed out waiting for session creation"
           (wait_loop none 101 0).1) :=
  ⟨(stt_start_timeout_spec (some 3) 3).2.1 rfl (by decide),
   (stt_start_timeout_spec none 0).2.2.1 rfl⟩

/-- Claim C10: a response.text.delta event whose delta field is absent or
empty leaves the whole session state unchanged, including the ready,
in-progress and interrupted flags, and emits nothing. -/
theorem empty_delta_frame (s : ChatState) :
    on_message s (Event.responseTextDelta none) = (s, []) ∧
    on_message s (Event.responseTextDelta (some "")) = (s, []) := by
  cases h : s.interrupted <;> simp [on_message, h]
